import Mathlib

/-!
Verification development for `src/python/generate_api_key.py`, the
Polymarket CLOB API-key generation script.  The script is a single linear
procedure; we model it as a pure function from an abstract `World`
(the environment variable, the outcome of client construction and the
outcome of the one provisioning call) to the observable `RunResult`
(console lines, process exit code, the client objects constructed and
the number of provisioning calls issued).
-/

/-- Python `str.startswith`, modelled as a prefix test on character lists. -/
def startswith (s pre : String) : Bool :=
  pre.toList.isPrefixOf s.toList

/-- Helper for the Python substring test: does `pat` occur inside the list? -/
def charsContain (pat : List Char) : List Char → Bool
  | [] => pat.isPrefixOf []
  | c :: cs => pat.isPrefixOf (c :: cs) || charsContain pat (cs)

/-- Python `pat in s` substring containment on strings. -/
def containsSubstr (s pat : String) : Bool :=
  charsContain pat.toList s.toList

/-- The client object built by `ClobClient(host=..., chain_id=..., key=...)`. -/
structure ClobClient where
  host : String
  chain_id : Nat
  key : String
deriving DecidableEq

/-- The credential triple read from the provisioning result. -/
structure ApiCreds where
  apiKey : String
  secret : String
  passphrase : String
deriving DecidableEq

/-- Outcome of `await client.create_api_key()`: either the call raises with a
message, or it returns a dict (modelled as an association list). -/
inductive ProvisionOutcome where
  | raise (msg : String)
  | ret (dict : List (String × String))

/-- The abstract inputs of one run: the `PRIVATE_KEY` environment value
(`none` when unset), whether `ClobClient(...)` raises (and with what
message), and the outcome of the provisioning call. -/
structure World where
  privateKey : Option String
  ctorFailure : Option String
  provision : ProvisionOutcome

/-- Observable result of a run: every line printed, the process exit code,
the client objects constructed, how many provisioning calls were issued,
and the credential triple delivered on full success. -/
structure RunResult where
  output : List String
  exitCode : Nat
  constructedClients : List ClobClient
  provisionCalls : Nat
  emittedCreds : Option ApiCreds

/-- Python dict item access `d[k]`, as an association-list lookup. -/
def dictGet (d : List (String × String)) (k : String) : Option String :=
  (d.find? (fun p => p.1 == k)).map Prod.snd

/-- `str(KeyError(k))` in Python renders the key wrapped in single quotes. -/
def keyErrorMsg (k : String) : String := "\x27" ++ k ++ "\x27"

/-- The banner separator `"═" * 60`. -/
def sepLine : String := String.mk (List.replicate 60 '═')

/-- First heuristic cause printed for HTTP-400-looking failures. -/
def cause1 : String :=
  "1. Wallet needs to be initialized (try logging in on polymarket.com first)"

/-- Second heuristic cause printed for HTTP-400-looking failures. -/
def cause2 : String := "2. Wallet needs a small amount of MATIC"

/-- Third heuristic cause printed for HTTP-400-looking failures. -/
def cause3 : String := "3. System time is out of sync"

/-- Lines printed by the `except` handler of the provisioning call:
the failure header, the indented message, and the three heuristic causes
exactly when the message contains `"400"`. -/
def provisionFailureLines (msg : String) : List String :=
  ["\n❌ FAILED to create API Key:", "   " ++ msg] ++
    (if containsSubstr msg "400" then
      ["\nPossible causes:", cause1, cause2, cause3]
    else [])

/-- Lines printed by the remediation branch when `PRIVATE_KEY` is unset. -/
def missingKeyLines : List String :=
  ["❌ Error: PRIVATE_KEY not found in .env file",
   "\nPlease add your private key to the .env file:",
   "PRIVATE_KEY=0x...\n"]

/-- The `0x`-normalization applied to the private key before client
construction: prepend `"0x"` when the prefix test fails. -/
def normalizePrivateKey (k : String) : String :=
  if startswith k "0x" then k else "0x" ++ k

/-- The success block of the inner `try`: the lines printed after
`create_api_key` returns `dict`, the exception message if a field lookup
raises `KeyError` mid-block (each f-string evaluates its lookup before the
line is printed), and the credential triple when all three lookups succeed. -/
def successLines (dict : List (String × String)) :
    List String × Option String × Option ApiCreds :=
  let banner := ["\n✅ SUCCESS! API Key created successfully!\n",
                 sepLine, "API Credentials:", sepLine]
  match dictGet dict "apiKey" with
  | none => (banner, some (keyErrorMsg "apiKey"), none)
  | some k =>
    match dictGet dict "secret" with
    | none => (banner ++ ["API Key:    " ++ k], some (keyErrorMsg "secret"), none)
    | some s =>
      match dictGet dict "passphrase" with
      | none => (banner ++ ["API Key:    " ++ k, "Secret:     " ++ s],
                 some (keyErrorMsg "passphrase"), none)
      | some p =>
        (banner ++
          ["API Key:    " ++ k, "Secret:     " ++ s, "Passphrase: " ++ p,
           sepLine, "\nPlease add these to your .env file:\n",
           "CLOB_API_KEY=" ++ k, "CLOB_SECRET=" ++ s, "CLOB_PASSPHRASE=" ++ p],
         none, some ⟨k, s, p⟩)

/-- The whole run of `generate_api_key()`, line for line from the source:
check the environment value (Python falsiness: unset or empty both fail),
normalize the `0x` prefix, construct the client inside the outer `try`,
issue the one provisioning call inside the inner `try`, and print the
success block or the failure handler.  No branch forces a non-zero exit
except the missing-key `sys.exit(1)`. -/
def generate_api_key (w : World) : RunResult :=
  let out0 := ["🔑 Generating Polymarket CLOB API Key...\n"]
  match w.privateKey with
  | none =>
    { output := out0 ++ missingKeyLines, exitCode := 1,
      constructedClients := [], provisionCalls := 0, emittedCreds := none }
  | some pk =>
    if pk = "" then
      { output := out0 ++ missingKeyLines, exitCode := 1,
        constructedClients := [], provisionCalls := 0, emittedCreds := none }
    else
      let out1 := if startswith pk "0x" then out0
                  else out0 ++ ["ℹ️  Adding \x270x\x27 prefix to private key"]
      let private_key := normalizePrivateKey pk
      let out2 := out1 ++ ["📝 Creating CLOB client..."]
      match w.ctorFailure with
      | some emsg =>
        { output := out2 ++ ["\n❌ Error initializing client: " ++ emsg],
          exitCode := 0, constructedClients := [], provisionCalls := 0,
          emittedCreds := none }
      | none =>
        let client : ClobClient :=
          { host := "https://clob.polymarket.com", chain_id := 137,
            key := private_key }
        let out3 := out2 ++ ["   Connected to Polymarket CLOB\n",
                             "🔐 Creating API credentials..."]
        match w.provision with
        | .raise emsg =>
          { output := out3 ++ provisionFailureLines emsg, exitCode := 0,
            constructedClients := [client], provisionCalls := 1,
            emittedCreds := none }
        | .ret dict =>
          let r := successLines dict
          { output := out3 ++ r.1 ++
              (match r.2.1 with
               | none => []
               | some emsg => provisionFailureLines emsg),
            exitCode := 0, constructedClients := [client], provisionCalls := 1,
            emittedCreds := r.2.2 }

/-! ### Helper lemmas -/

theorem startswith_0x_append (k : String) :
    startswith ("0x" ++ k) "0x" = true := by
  have h : ("0x" ++ k).toList = '0' :: 'x' :: k.toList := by
    simp [String.toList]
  have h2 : ("0x" : String).toList = ['0', 'x'] := rfl
  simp [startswith, h, h2, List.isPrefixOf]

/-! ### Claims -/

/-- C1: if the PRIVATE_KEY environment value is absent, the run prints the
remediation text and terminates with exit code 1 before constructing any
session handle and without performing any network call. -/
theorem missing_key_halts (w : World) (h : w.privateKey = none) :
    (generate_api_key w).exitCode = 1 ∧
    (∀ l ∈ missingKeyLines, l ∈ (generate_api_key w).output) ∧
    (generate_api_key w).constructedClients = [] ∧
    (generate_api_key w).provisionCalls = 0 := by
  simp [generate_api_key, h, missingKeyLines]

theorem missing_key_halts_witness :
    (generate_api_key ⟨none, none, ProvisionOutcome.raise "x"⟩).exitCode = 1 :=
  (missing_key_halts ⟨none, none, ProvisionOutcome.raise "x"⟩ rfl).1

/-- C2: a key without the "0x" prefix is passed to session construction with
"0x" prepended; a key already prefixed is passed unchanged; the
normalization is idempotent; and every constructed client's key is exactly
the normalization of the environment value. -/
theorem normalization_correct (k : String) (w : World) :
    (startswith k "0x" = false → normalizePrivateKey k = "0x" ++ k) ∧
    (startswith k "0x" = true → normalizePrivateKey k = k) ∧
    normalizePrivateKey (normalizePrivateKey k) = normalizePrivateKey k ∧
    (∀ c ∈ (generate_api_key w).constructedClients,
      ∃ pk, w.privateKey = some pk ∧ c.key = normalizePrivateKey pk) := by
  refine ⟨?_, ?_, ?_, ?_⟩
  · intro h; simp [normalizePrivateKey, h]
  · intro h; simp [normalizePrivateKey, h]
  · by_cases h : startswith k "0x"
    · simp [normalizePrivateKey, h]
    · simp [normalizePrivateKey, h, startswith_0x_append]
  · intro c hc
    rcases hw : w.privateKey with _ | pk
    · simp [generate_api_key, hw] at hc
    · by_cases hpk : pk = ""
      · simp [generate_api_key, hw, hpk] at hc
      · rcases hctor : w.ctorFailure with _ | emsg
        · rcases hprov : w.provision with emsg | dict
          · simp [generate_api_key, hw, hpk, hctor, hprov] at hc
            exact ⟨pk, rfl, by rw [hc]⟩
          · simp [generate_api_key, hw, hpk, hctor, hprov] at hc
            exact ⟨pk, rfl, by rw [hc]⟩
        · simp [generate_api_key, hw, hpk, hctor] at hc

theorem normalization_correct_witness :
    normalizePrivateKey "abc" = "0x" ++ "abc" :=
  (normalization_correct "abc" ⟨none, none, ProvisionOutcome.raise "x"⟩).1
    (by decide)

/-- C3: if session-handle construction raises, the run prints the
initialization error message and never invokes the provisioning call. -/
theorem ctor_failure_no_provision (w : World) (pk emsg : String)
    (h : w.privateKey = some pk) (hne : pk ≠ "")
    (hc : w.ctorFailure = some emsg) :
    ("\n❌ Error initializing client: " ++ emsg) ∈ (generate_api_key w).output ∧
    (generate_api_key w).provisionCalls = 0 := by
  by_cases hsw : startswith pk "0x" <;>
    simp [generate_api_key, h, hne, hc, hsw]

theorem ctor_failure_no_provision_witness :
    (generate_api_key ⟨some "0xab", some "boom", ProvisionOutcome.raise "x"⟩).provisionCalls = 0 :=
  (ctor_failure_no_provision ⟨some "0xab", some "boom", ProvisionOutcome.raise "x"⟩
    "0xab" "boom" rfl (by decide) rfl).2

/-- C4: on a successful provisioning result with fields apiKey=K, secret=S,
passphrase=P, the output contains the literal lines CLOB_API_KEY=K,
CLOB_SECRET=S and CLOB_PASSPHRASE=P. -/
theorem success_emits_env_lines (w : World) (pk : String)
    (dict : List (String × String)) (K S P : String)
    (h : w.privateKey = some pk) (hne : pk ≠ "") (hc : w.ctorFailure = none)
    (hp : w.provision = ProvisionOutcome.ret dict)
    (hk : dictGet dict "apiKey" = some K)
    (hs : dictGet dict "secret" = some S)
    (hpp : dictGet dict "passphrase" = some P) :
    ("CLOB_API_KEY=" ++ K) ∈ (generate_api_key w).output ∧
    ("CLOB_SECRET=" ++ S) ∈ (generate_api_key w).output ∧
    ("CLOB_PASSPHRASE=" ++ P) ∈ (generate_api_key w).output := by
  by_cases hsw : startswith pk "0x" <;>
    simp [generate_api_key, successLines, h, hne, hc, hp, hk, hs, hpp, hsw]

theorem success_emits_env_lines_witness :
    ("CLOB_API_KEY=" ++ "K") ∈
      (generate_api_key ⟨some "0xab", none,
        ProvisionOutcome.ret [("apiKey", "K"), ("secret", "S"), ("passphrase", "P")]⟩).output :=
  (success_emits_env_lines _ "0xab"
    [("apiKey", "K"), ("secret", "S"), ("passphrase", "P")] "K" "S" "P"
    rfl (by decide) rfl rfl (by decide) (by decide) (by decide)).1

theorem padded_msg_head (msg : String) :
    ("   " ++ msg).data.head? = some ' ' := by
  have h : ("   " ++ msg).data = ' ' :: ' ' :: ' ' :: msg.data := by
    rw [String.data_append]; rfl
  rw [h]; rfl

theorem pad_ne_cause (msg c : String) (hc : c.data.head? ≠ some ' ') :
    "   " ++ msg ≠ c := by
  intro he
  exact hc (he ▸ padded_msg_head msg)

/-- C5: when the provisioning call fails, the output includes all three
heuristic causes when the failure message contains "400", and contains none
of the three causes when it does not. -/
theorem provision_failure_causes_all_or_none (w : World) (pk emsg : String)
    (h : w.privateKey = some pk) (hne : pk ≠ "") (hc : w.ctorFailure = none)
    (hp : w.provision = ProvisionOutcome.raise emsg) :
    (containsSubstr emsg "400" = true →
      cause1 ∈ (generate_api_key w).output ∧
      cause2 ∈ (generate_api_key w).output ∧
      cause3 ∈ (generate_api_key w).output) ∧
    (containsSubstr emsg "400" = false →
      cause1 ∉ (generate_api_key w).output ∧
      cause2 ∉ (generate_api_key w).output ∧
      cause3 ∉ (generate_api_key w).output) := by
  by_cases h400 : containsSubstr emsg "400"
  · refine ⟨fun _ => ?_, fun hff => absurd h400 (by simp [hff])⟩
    by_cases hsw : startswith pk "0x" <;>
      simp [generate_api_key, provisionFailureLines, h, hne, hc, hp, hsw, h400]
  · refine ⟨fun htt => absurd htt h400, fun _ => ⟨?_, ?_, ?_⟩⟩ <;>
      intro h1 <;>
      by_cases hsw : startswith pk "0x" <;>
      simp +decide [generate_api_key, provisionFailureLines, h, hne, hc, hp,
        hsw, h400] at h1 <;>
      exact pad_ne_cause emsg _ (by decide) h1.symm

theorem provision_failure_causes_all_or_none_witness :
    (cause1 ∈ (generate_api_key
        ⟨some "0xab", none, ProvisionOutcome.raise "status 400"⟩).output ∧
      cause2 ∈ (generate_api_key
        ⟨some "0xab", none, ProvisionOutcome.raise "status 400"⟩).output ∧
      cause3 ∈ (generate_api_key
        ⟨some "0xab", none, ProvisionOutcome.raise "status 400"⟩).output) ∧
    cause1 ∉ (generate_api_key
        ⟨some "0xab", none, ProvisionOutcome.raise "timeout"⟩).output :=
  ⟨(provision_failure_causes_all_or_none _ "0xab" "status 400"
      rfl (by decide) rfl rfl).1 (by decide),
    ((provision_failure_causes_all_or_none _ "0xab" "timeout"
      rfl (by decide) rfl rfl).2 (by decide)).1⟩

/-- C6: the exit code is 1 exactly in the missing-secret case (unset or
empty environment value); every other path, including both failure paths,
falls through to the default success code 0. -/
theorem exit_code_only_for_missing_key (w : World) :
    ((generate_api_key w).exitCode = 1 ↔
      (w.privateKey = none ∨ w.privateKey = some "")) ∧
    ((generate_api_key w).exitCode = 0 ∨ (generate_api_key w).exitCode = 1) := by
  rcases hw : w.privateKey with _ | pk
  · simp [generate_api_key, hw]
  · by_cases hpk : pk = ""
    · subst hpk; simp [generate_api_key, hw]
    · rcases hctor : w.ctorFailure with _ | emsg
      · rcases hprov : w.provision with emsg | dict <;>
          by_cases hsw : startswith pk "0x" <;>
          simp [generate_api_key, hw, hpk, hctor, hprov, hsw]
      · by_cases hsw : startswith pk "0x" <;>
          simp [generate_api_key, hw, hpk, hctor, hsw]

/-- C7: every run issues at most one provisioning call, on every path. -/
theorem at_most_one_provision_call (w : World) :
    (generate_api_key w).provisionCalls ≤ 1 := by
  rcases hw : w.privateKey with _ | pk
  · simp [generate_api_key, hw]
  · by_cases hpk : pk = ""
    · simp [generate_api_key, hw, hpk]
    · rcases hctor : w.ctorFailure with _ | emsg
      · rcases hprov : w.provision with emsg | dict <;>
          simp [generate_api_key, hw, hpk, hctor, hprov]
      · simp [generate_api_key, hw, hpk, hctor]

theorem normalize_ne_empty (pk : String) (h : pk ≠ "") :
    normalizePrivateKey pk ≠ "" := by
  unfold normalizePrivateKey
  split
  · exact h
  · intro he
    have hd := congrArg String.data he
    rw [String.data_append] at hd
    have h2 : ("0x" : String).data = ['0', 'x'] := rfl
    have h3 : ("" : String).data = [] := rfl
    rw [h2, h3] at hd
    simp at hd

theorem successLines_creds (dict : List (String × String)) (t : ApiCreds)
    (h : (successLines dict).2.2 = some t) :
    dictGet dict "apiKey" = some t.apiKey ∧
    dictGet dict "secret" = some t.secret ∧
    dictGet dict "passphrase" = some t.passphrase := by
  rcases hk : dictGet dict "apiKey" with _ | k
  · simp [successLines, hk] at h
  · rcases hs : dictGet dict "secret" with _ | s
    · simp [successLines, hk, hs] at h
    · rcases hp : dictGet dict "passphrase" with _ | p
      · simp [successLines, hk, hs, hp] at h
      · simp [successLines, hk, hs, hp] at h
        rw [← h]
        exact ⟨rfl, rfl, rfl⟩

/-- C8: every constructed session handle carries a non-empty key, and every
credential triple emitted on success consists of exactly the three string
fields apiKey, secret and passphrase read from the provisioning result. -/
theorem session_and_triple_invariants (w : World) :
    (∀ c ∈ (generate_api_key w).constructedClients, c.key ≠ "") ∧
    (∀ t : ApiCreds, (generate_api_key w).emittedCreds = some t →
      ∃ dict, w.provision = ProvisionOutcome.ret dict ∧
        dictGet dict "apiKey" = some t.apiKey ∧
        dictGet dict "secret" = some t.secret ∧
        dictGet dict "passphrase" = some t.passphrase) := by
  constructor
  · intro c hc
    rcases hw : w.privateKey with _ | pk
    · simp [generate_api_key, hw] at hc
    · by_cases hpk : pk = ""
      · simp [generate_api_key, hw, hpk] at hc
      · rcases hctor : w.ctorFailure with _ | emsg
        · rcases hprov : w.provision with emsg | dict <;>
            simp [generate_api_key, hw, hpk, hctor, hprov] at hc <;>
            rw [hc] <;> exact normalize_ne_empty pk hpk
        · simp [generate_api_key, hw, hpk, hctor] at hc
  · intro t ht
    rcases hw : w.privateKey with _ | pk
    · simp [generate_api_key, hw] at ht
    · by_cases hpk : pk = ""
      · simp [generate_api_key, hw, hpk] at ht
      · rcases hctor : w.ctorFailure with _ | emsg
        · rcases hprov : w.provision with emsg | dict
          · simp [generate_api_key, hw, hpk, hctor, hprov] at ht
          · simp [generate_api_key, hw, hpk, hctor, hprov] at ht
            exact ⟨dict, rfl, successLines_creds dict t ht⟩
        · simp [generate_api_key, hw, hpk, hctor] at ht

theorem session_and_triple_invariants_witness :
    (ClobClient.mk "https://clob.polymarket.com" 137 "0xab").key ≠ "" :=
  (session_and_triple_invariants
    ⟨some "0xab", none, ProvisionOutcome.raise "x"⟩).1 _ (by decide)

/-- C9: every constructed session handle is bound to the fixed hostname and
the fixed network identifier 137, independently of all inputs. -/
theorem fixed_endpoint (w : World) :
    ∀ c ∈ (generate_api_key w).constructedClients,
      c.host = "https://clob.polymarket.com" ∧ c.chain_id = 137 := by
  intro c hc
  rcases hw : w.privateKey with _ | pk
  · simp [generate_api_key, hw] at hc
  · by_cases hpk : pk = ""
    · simp [generate_api_key, hw, hpk] at hc
    · rcases hctor : w.ctorFailure with _ | emsg
      · rcases hprov : w.provision with emsg | dict <;>
          simp [generate_api_key, hw, hpk, hctor, hprov] at hc <;>
          rw [hc] <;> exact ⟨rfl, rfl⟩
      · simp [generate_api_key, hw, hpk, hctor] at hc

theorem fixed_endpoint_witness :
    (ClobClient.mk "https://clob.polymarket.com" 137 "0xab").host =
        "https://clob.polymarket.com" ∧
      (ClobClient.mk "https://clob.polymarket.com" 137 "0xab").chain_id = 137 :=
  fixed_endpoint ⟨some "0xab", none, ProvisionOutcome.raise "x"⟩ _ (by decide)

/-- C10: a successful provisioning result that lacks one of the three
expected fields does not crash the run: the KeyError raised by the field
access is caught by the provisioning-failure handler, the FAILED message is
printed, and the run still terminates with the default success code. -/
theorem missing_field_handled (w : World) (pk : String)
    (dict : List (String × String))
    (h : w.privateKey = some pk) (hne : pk ≠ "") (hc : w.ctorFailure = none)
    (hp : w.provision = ProvisionOutcome.ret dict)
    (hmiss : dictGet dict "apiKey" = none ∨ dictGet dict "secret" = none ∨
      dictGet dict "passphrase" = none) :
    "\n❌ FAILED to create API Key:" ∈ (generate_api_key w).output ∧
    (generate_api_key w).exitCode = 0 := by
  have hex : ∃ emsg, (successLines dict).2.1 = some emsg := by
    rcases hk : dictGet dict "apiKey" with _ | k
    · exact ⟨keyErrorMsg "apiKey", by simp [successLines, hk]⟩
    · rcases hs : dictGet dict "secret" with _ | s
      · exact ⟨keyErrorMsg "secret", by simp [successLines, hk, hs]⟩
      · rcases hpp : dictGet dict "passphrase" with _ | p
        · exact ⟨keyErrorMsg "passphrase", by simp [successLines, hk, hs, hpp]⟩
        · rcases hmiss with hm | hm | hm <;> simp_all
  obtain ⟨emsg, hemsg⟩ := hex
  by_cases hsw : startswith pk "0x" <;>
    simp [generate_api_key, provisionFailureLines, h, hne, hc, hp, hsw, hemsg]

theorem missing_field_handled_witness :
    "\n❌ FAILED to create API Key:" ∈
      (generate_api_key ⟨some "0xab", none, ProvisionOutcome.ret []⟩).output :=
  (missing_field_handled ⟨some "0xab", none, ProvisionOutcome.ret []⟩ "0xab" []
    rfl (by decide) rfl rfl (Or.inl (by decide))).1
